import Mathlib

/-!
Verification of `src/entity-manager/ReactiveEntityManager.ts`
(Evertras/typeorm).

The file embeds the reactive entity manager shallowly:

* `ManagerState` mirrors the manager fields consulted by the code
  (`useSingleDatabaseConnection`, `isReleased`, `queryRunnerProvider`).
* The async thunks built inside `query` and `transaction` become pure
  functions from an activation environment (the outcome of each external
  call: `provide`, the raw query, `beginTransaction`, the unit of work,
  `commitTransaction`, `rollbackTransaction`, `release`) to a `RunResult`:
  the ordered trace of external calls performed, the settled outcome, and
  the manager state afterwards.  JavaScript `try`/`catch`/`finally`
  semantics are translated explicitly: a rejection from an `await` inside
  `finally` (or inside `catch`) replaces the pending outcome.
* The Task Bridge (`Rx.Observable.fromPromise` over a thunk) is external
  to the repository and is modelled from the spec as a cold stream: the
  stream is its thunk, and each activation applies the thunk to that
  activation's environment.
* Entity/`find*` dispatch is embedded over an abstract repository
  resolver, with JavaScript values carrying their truthiness.
-/

namespace ReactiveEntityManager

/-- Errors surfaced on a stream: the one error kind introduced by this
layer, plus opaque errors coming from external collaborators
(provider, runner, unit of work). -/
inductive JsError
  | entityManagerAlreadyReleased
  | external (code : Nat)
  deriving DecidableEq, Repr

/-- Observable external calls made while a `query`/`transaction`
activation runs.  `repoOp` stands for a repository operation performed by
the caller-supplied unit of work (e.g. a `persist`). -/
inductive Event
  | provide
  | release
  | runnerQuery (sql : String)
  | beginTransaction
  | commitTransaction
  | rollbackTransaction
  | repoOp (id : Nat)
  deriving DecidableEq, Repr

/-- The manager fields read by `query`/`transaction`
(`BaseEntityManager` state, as consulted from the source under
verification).  The shared `QueryRunnerProvider`, when present, is
identified by a numeric id. -/
structure ManagerState where
  useSingleDatabaseConnection : Bool
  isReleased : Bool
  queryRunnerProvider : Option Nat
  deriving DecidableEq, Repr

/-- Raw rows returned by a raw SQL query. -/
abbrev Rows := List String

/-- Result of running one activation's thunk: the ordered trace of
external calls, the settled outcome of the promise, and the manager
state when the promise settles. -/
structure RunResult (α : Type) where
  trace : List Event
  outcome : Except JsError α
  state : ManagerState
  deriving Repr

/-- One activation's environment for `query`: the outcome of acquiring a
runner, of running the raw query on it, and of releasing it. -/
structure QueryEnv where
  provide : Except JsError Unit
  runQuery : String → Except JsError Rows
  release : Except JsError Unit

/-- Shallow embedding of the async thunk built inside
`ReactiveEntityManager.query` (source lines 165-179):

1. throw `EntityManagerAlreadyReleasedError` when
   `useSingleDatabaseConnection && isReleased`;
2. select a provider (`this.queryRunnerProvider || new ...`) and
   `await provide()` — a rejection propagates before the `try` is entered;
3. `try { result = await queryRunner.query(q) } finally { await release }`:
   the raw query runs, then `release` runs unconditionally; a rejection
   from `release` replaces the `try` block's outcome.

No field of `this` is assigned anywhere in the method, so the manager
state in the result is the input state on every path. -/
def queryPromiseFn (s : ManagerState) (env : QueryEnv) (q : String) :
    RunResult Rows :=
  if s.useSingleDatabaseConnection && s.isReleased then
    ⟨[], .error .entityManagerAlreadyReleased, s⟩
  else
    match env.provide with
    | .error e => ⟨[.provide], .error e, s⟩
    | .ok _ =>
      let tryOutcome := env.runQuery q
      let settled : Except JsError Rows :=
        match env.release with
        | .ok _ => tryOutcome
        | .error e2 => .error e2
      ⟨[.provide, .runnerQuery q, .release], settled, s⟩

/-- One activation's environment for `transaction`: outcomes of
`provide`, `beginTransaction`, the caller-supplied unit of work (the
repository operations it performs plus its outcome), `commitTransaction`,
`rollbackTransaction` and `release`. -/
structure TxEnv (α : Type) where
  provide : Except JsError Unit
  beginTx : Except JsError Unit
  unitOfWorkOps : List Nat
  unitOfWorkOutcome : Except JsError α
  commit : Except JsError Unit
  rollback : Except JsError Unit
  release : Except JsError Unit

/-- The `catch` block of `transaction` (source lines 200-202):
`await queryRunner.rollbackTransaction(); throw err`.  `t` is the trace
accumulated by the `try` block and `e` the error it threw; when
`rollbackTransaction` itself rejects, its rejection propagates instead of
`e` (the `throw err` is never reached). -/
def txCatch {α : Type} (env : TxEnv α) (t : List Event) (e : JsError) :
    List Event × Except JsError α :=
  match env.rollback with
  | .ok _ => (t ++ [.rollbackTransaction], .error e)
  | .error e2 => (t ++ [.rollbackTransaction], .error e2)

/-- The `try`/`catch` of `transaction` (source lines 194-203):
`beginTransaction`, then the unit of work, then `commitTransaction`;
any rejection among the three enters the `catch`. -/
def txTryCatch {α : Type} (env : TxEnv α) : List Event × Except JsError α :=
  match env.beginTx with
  | .error e => txCatch env [.beginTransaction] e
  | .ok _ =>
    let uowTrace := env.unitOfWorkOps.map Event.repoOp
    match env.unitOfWorkOutcome with
    | .error e => txCatch env ([.beginTransaction] ++ uowTrace) e
    | .ok v =>
      match env.commit with
      | .error e =>
        txCatch env ([.beginTransaction] ++ uowTrace ++ [.commitTransaction]) e
      | .ok _ =>
        ([.beginTransaction] ++ uowTrace ++ [.commitTransaction], .ok v)

/-- Shallow embedding of the async thunk built inside
`ReactiveEntityManager.transaction` (source lines 187-207): released
guard, provider selection and `provide` as in `query`, then the
`try`/`catch` above inside a `finally` that awaits `release`
unconditionally (a rejection from `release` replaces the pending
outcome).  As in `query`, no manager field is assigned. -/
def transactionPromiseFn {α : Type} (s : ManagerState) (env : TxEnv α) :
    RunResult α :=
  if s.useSingleDatabaseConnection && s.isReleased then
    ⟨[], .error .entityManagerAlreadyReleased, s⟩
  else
    match env.provide with
    | .error e => ⟨[.provide], .error e, s⟩
    | .ok _ =>
      let body := txTryCatch env
      let settled : Except JsError α :=
        match env.release with
        | .ok _ => body.2
        | .error e2 => .error e2
      ⟨.provide :: body.1 ++ [.release], settled, s⟩

/-- Modelled from the spec: the Task Bridge (spec §4.4), i.e. the
behaviour of `Rx.Observable.fromPromise` applied to the thunk — that
code is not under `src/`.  Per the spec, the returned stream is cold: no
work happens until a consumer activates it, and each activation
re-invokes the thunk independently.  A cold stream is therefore
represented by its thunk, and an activation applies the thunk to that
activation's environment; creating the stream runs nothing. -/
structure ColdStream (ε α : Type) where
  thunk : ε → RunResult α

/-- Activating (subscribing to) a cold stream runs its thunk once. -/
def ColdStream.subscribe {ε α : Type} (st : ColdStream ε α) (env : ε) :
    RunResult α :=
  st.thunk env

/-- `query` (source lines 164-181): build the thunk and hand it to the
Task Bridge. -/
def query (s : ManagerState) (q : String) : ColdStream QueryEnv Rows :=
  ⟨fun env => queryPromiseFn s env q⟩

/-- `transaction` (source lines 186-209): build the thunk and hand it to
the Task Bridge. -/
def transaction (α : Type) (s : ManagerState) : ColdStream (TxEnv α) α :=
  ⟨fun env => transactionPromiseFn s env⟩

/-- Number of occurrences of event `e` in trace `t`. -/
def countEvent (t : List Event) (e : Event) : Nat :=
  (t.filter (fun x => x = e)).length

theorem countEvent_nil (e : Event) : countEvent [] e = 0 := rfl

theorem countEvent_cons (x : Event) (t : List Event) (e : Event) :
    countEvent (x :: t) e =
      (if x = e then 1 else 0) + countEvent t e := by
  by_cases h : x = e <;> simp [countEvent, List.filter, h, Nat.add_comm]

theorem countEvent_append (t₁ t₂ : List Event) (e : Event) :
    countEvent (t₁ ++ t₂) e = countEvent t₁ e + countEvent t₂ e := by
  simp [countEvent, List.filter_append]

/-- Repository operations performed by a unit of work are never
provider/runner control calls. -/
theorem countEvent_map_repoOp (l : List Nat) (e : Event)
    (h : ∀ n, e ≠ Event.repoOp n) :
    countEvent (l.map Event.repoOp) e = 0 := by
  induction l with
  | nil => rfl
  | cons n rest ih =>
    have hne : Event.repoOp n ≠ e := fun hc => (h n) hc.symm
    simp [List.map_cons, countEvent_cons, hne, ih]

/-- An entity value: its runtime type tag (`entity.constructor`) and an
opaque payload. -/
structure EntityVal where
  ctor : String
  payload : Nat
  deriving DecidableEq, Repr

/-- The per-entity reactive repository interface used by
`persist`/`remove`; `ρ` is the stream type the repository returns. -/
structure ReactiveRepository (ρ : Type) where
  persistOp : EntityVal → ρ
  removeOp : EntityVal → ρ

/-- `persist(entity)` with one argument (source lines 32-36, branch
`arguments.length !== 2`): the target is `entity.constructor` and the
entity is the argument itself; the repository's stream is returned
unchanged. -/
def persist {ρ : Type} (getReactiveRepository : String → ReactiveRepository ρ)
    (entity : EntityVal) : ρ :=
  (getReactiveRepository entity.ctor).persistOp entity

/-- `persist(targetOrEntity, entity)` with two arguments (source lines
32-36, branch `arguments.length === 2`): the target is the first
argument, the entity the second. -/
def persistTo {ρ : Type} (getReactiveRepository : String → ReactiveRepository ρ)
    (target : String) (entity : EntityVal) : ρ :=
  (getReactiveRepository target).persistOp entity

/-- `remove(entity)` with one argument (source lines 43-47). -/
def remove {ρ : Type} (getReactiveRepository : String → ReactiveRepository ρ)
    (entity : EntityVal) : ρ :=
  (getReactiveRepository entity.ctor).removeOp entity

/-- `remove(targetOrEntity, entity)` with two arguments (source lines
43-47). -/
def removeTo {ρ : Type} (getReactiveRepository : String → ReactiveRepository ρ)
    (target : String) (entity : EntityVal) : ρ :=
  (getReactiveRepository target).removeOp entity

/-- A JavaScript value in an optional argument slot: a missing argument
is `undefinedV`; `nullV` is a supplied `null`; `objV` is any object
(conditions object or find options), always truthy. -/
inductive JsVal
  | undefinedV
  | nullV
  | objV (id : Nat)
  deriving DecidableEq, Repr

/-- JavaScript truthiness of the values above: objects are truthy,
`undefined` and `null` are falsy. -/
def JsVal.truthy : JsVal → Bool
  | .objV _ => true
  | .undefinedV => false
  | .nullV => false

/-- The three arities of a repository `find`-family method
(`find`/`findAndCount`/`findOne` each have a two-argument, one-argument
and zero-argument variant); `ρ` is the returned stream type. -/
structure FindFamily (ρ : Type) where
  withBoth : JsVal → JsVal → ρ
  withOne : JsVal → ρ
  withNone : ρ

/-- Which repository variant was invoked, with the arguments forwarded
to it: the canonical `FindFamily` used to observe dispatch. -/
inductive FindCall
  | calledBoth (cond opts : JsVal)
  | calledOne (condOrOpts : JsVal)
  | calledNone
  deriving DecidableEq, Repr

/-- The canonical recording repository. -/
def recorder : FindFamily FindCall :=
  ⟨FindCall.calledBoth, FindCall.calledOne, FindCall.calledNone⟩

/-- `find` (source lines 72-82): `if (conditionsOrFindOptions && options)`
forwards both, `else if (conditionsOrFindOptions)` forwards the first
alone, else the zero-argument variant — the tests are JavaScript
truthiness of the positional arguments. -/
def find {ρ : Type} (resolve : String → FindFamily ρ) (entityClass : String)
    (conditionsOrFindOptions options : JsVal) : ρ :=
  if conditionsOrFindOptions.truthy && options.truthy then
    (resolve entityClass).withBoth conditionsOrFindOptions options
  else if conditionsOrFindOptions.truthy then
    (resolve entityClass).withOne conditionsOrFindOptions
  else
    (resolve entityClass).withNone

/-- `findAndCount` (source lines 107-117): same truthiness dispatch. -/
def findAndCount {ρ : Type} (resolve : String → FindFamily ρ)
    (entityClass : String) (conditionsOrFindOptions options : JsVal) : ρ :=
  if conditionsOrFindOptions.truthy && options.truthy then
    (resolve entityClass).withBoth conditionsOrFindOptions options
  else if conditionsOrFindOptions.truthy then
    (resolve entityClass).withOne conditionsOrFindOptions
  else
    (resolve entityClass).withNone

/-- `findOne` (source lines 142-152): same truthiness dispatch. -/
def findOne {ρ : Type} (resolve : String → FindFamily ρ)
    (entityClass : String) (conditionsOrFindOptions options : JsVal) : ρ :=
  if conditionsOrFindOptions.truthy && options.truthy then
    (resolve entityClass).withBoth conditionsOrFindOptions options
  else if conditionsOrFindOptions.truthy then
    (resolve entityClass).withOne conditionsOrFindOptions
  else
    (resolve entityClass).withNone

/-- The dispatch rule as claim C8 and spec §4.1 word it, dispatching on
positional PRESENCE: an optional argument is present exactly when the
caller supplied it, i.e. when the slot is not `undefined`.  Stated here
only to be compared with the code's dispatch. -/
def specFindDispatch (cond opts : JsVal) : FindCall :=
  if cond ≠ JsVal.undefinedV ∧ opts ≠ JsVal.undefinedV then
    FindCall.calledBoth cond opts
  else if cond ≠ JsVal.undefinedV then FindCall.calledOne cond
  else if opts ≠ JsVal.undefinedV then FindCall.calledOne opts
  else FindCall.calledNone

/-- The provider-id supply of the outside world: `next` is the id the
next `new QueryRunnerProvider(...)` would receive. -/
structure ProviderWorld where
  next : Nat
  deriving DecidableEq, Repr

/-- The provider selection on source lines 169 and 191:
`this.queryRunnerProvider || new QueryRunnerProvider(this.connection.driver)` —
use the shared provider when the manager holds one, otherwise a fresh
transient one. -/
def selectProvider (s : ManagerState) (fresh : Nat) : Nat :=
  s.queryRunnerProvider.getD fresh

/-- Modelled from the spec: ownership of the shared
`QueryRunnerProvider` lives in `BaseEntityManager`, which is not under
`src/`.  Spec §3 (mode invariant): when `useSingleDatabaseConnection` is
true the Manager lazily creates one RunnerProvider on first use, stores
it, and reuses it for every subsequent `query`/`transaction` call; when
false every call constructs a fresh RunnerProvider and discards it (the
manager state is untouched).  Returns the state afterwards, the world
afterwards, and the provider the call uses. -/
def obtainRunnerProvider (s : ManagerState) (w : ProviderWorld) :
    ManagerState × ProviderWorld × Nat :=
  if s.useSingleDatabaseConnection then
    match s.queryRunnerProvider with
    | some p => (s, w, p)
    | none =>
      ({ s with queryRunnerProvider := some w.next }, ⟨w.next + 1⟩, w.next)
  else (s, ⟨w.next + 1⟩, w.next)

/-- Providers used by `n` successive `query`/`transaction` calls on one
manager instance, together with the manager state afterwards. -/
def obtainSeq : ManagerState → ProviderWorld → Nat → List Nat × ManagerState
  | s, _, 0 => ([], s)
  | s, w, n + 1 =>
    let r := obtainRunnerProvider s w
    let rest := obtainSeq r.1 r.2.1 n
    (r.2.2 :: rest.1, rest.2)

theorem countEvent_repoOps_provide (l : List Nat) :
    countEvent (l.map Event.repoOp) Event.provide = 0 :=
  countEvent_map_repoOp l _ (fun _ h => Event.noConfusion h)

theorem countEvent_repoOps_release (l : List Nat) :
    countEvent (l.map Event.repoOp) Event.release = 0 :=
  countEvent_map_repoOp l _ (fun _ h => Event.noConfusion h)

theorem countEvent_repoOps_commit (l : List Nat) :
    countEvent (l.map Event.repoOp) Event.commitTransaction = 0 :=
  countEvent_map_repoOp l _ (fun _ h => Event.noConfusion h)

theorem countEvent_repoOps_rollback (l : List Nat) :
    countEvent (l.map Event.repoOp) Event.rollbackTransaction = 0 :=
  countEvent_map_repoOp l _ (fun _ h => Event.noConfusion h)

theorem getLast?_snoc (t : List Event) (e : Event) :
    (t ++ [e]).getLast? = some e := by
  induction t with
  | nil => rfl
  | cons x rest ih =>
    cases rest with
    | nil => rfl
    | cons y rest2 => simpa [List.cons_append, List.getLast?_cons_cons] using ih

/-- The `try`/`catch` of a transaction performs only transaction-control
and repository calls: it never touches the provider. -/
theorem txTryCatch_no_provide_release {α : Type} (env : TxEnv α) :
    countEvent (txTryCatch env).1 Event.provide = 0 ∧
    countEvent (txTryCatch env).1 Event.release = 0 := by
  rcases hb : env.beginTx with eb | u <;>
    rcases hu : env.unitOfWorkOutcome with eu | v <;>
      rcases hc : env.commit with ec | u2 <;>
        rcases hr : env.rollback with er | u3 <;>
          simp [txTryCatch, txCatch, hb, hu, hc, hr, countEvent_append,
            countEvent_cons, countEvent_nil, countEvent_repoOps_provide,
            countEvent_repoOps_release]

/-- Commit/rollback discipline of the `try`/`catch`: on a clean run only
`commitTransaction` is called; on a failure of `beginTransaction` or the
unit of work only `rollbackTransaction` is called; when
`commitTransaction` itself rejects, the `catch` additionally calls
`rollbackTransaction` after the failed commit. -/
theorem txTryCatch_commit_rollback {α : Type} (env : TxEnv α) :
    (countEvent (txTryCatch env).1 Event.commitTransaction = 1 ∧
      countEvent (txTryCatch env).1 Event.rollbackTransaction = 0) ∨
    (countEvent (txTryCatch env).1 Event.commitTransaction = 0 ∧
      countEvent (txTryCatch env).1 Event.rollbackTransaction = 1) ∨
    (countEvent (txTryCatch env).1 Event.commitTransaction = 1 ∧
      countEvent (txTryCatch env).1 Event.rollbackTransaction = 1 ∧
      ∃ e, env.commit = Except.error e) := by
  rcases hb : env.beginTx with eb | u
  · refine Or.inr (Or.inl ?_)
    rcases hr : env.rollback with er | u3 <;>
      simp [txTryCatch, txCatch, hb, hr, countEvent_append, countEvent_cons,
        countEvent_nil]
  · rcases hu : env.unitOfWorkOutcome with eu | v
    · refine Or.inr (Or.inl ?_)
      rcases hr : env.rollback with er | u3 <;>
        simp [txTryCatch, txCatch, hb, hu, hr, countEvent_append,
          countEvent_cons, countEvent_nil, countEvent_repoOps_commit,
          countEvent_repoOps_rollback]
    · rcases hc : env.commit with ec | u2
      · refine Or.inr (Or.inr ?_)
        refine ⟨?_, ?_, ec, rfl⟩ <;>
          rcases hr : env.rollback with er | u3 <;>
            simp [txTryCatch, txCatch, hb, hu, hc, hr, countEvent_append,
              countEvent_cons, countEvent_nil, countEvent_repoOps_commit,
              countEvent_repoOps_rollback]
      · refine Or.inl ?_
        simp [txTryCatch, txCatch, hb, hu, hc, countEvent_append,
          countEvent_cons, countEvent_nil, countEvent_repoOps_commit,
          countEvent_repoOps_rollback]

/-- C1: the stream returned by `query` is cold and re-executes per
activation: no work is recorded by building the stream; each of two
subscriptions runs the full acquisition/query/release protocol itself
(two independent `provide`/`release` pairs), and each activation's
outcome is its own execution's raw-query result — nothing is cached or
shared between the two activations. -/
theorem c1_query_cold_two_activations (s : ManagerState) (q : String)
    (e₁ e₂ : QueryEnv)
    (hg : (s.useSingleDatabaseConnection && s.isReleased) = false)
    (h₁ : e₁.provide = Except.ok ()) (h₂ : e₂.provide = Except.ok ())
    (hr₁ : e₁.release = Except.ok ()) (hr₂ : e₂.release = Except.ok ()) :
    ((query s q).subscribe e₁).trace =
      [Event.provide, Event.runnerQuery q, Event.release] ∧
    ((query s q).subscribe e₂).trace =
      [Event.provide, Event.runnerQuery q, Event.release] ∧
    ((query s q).subscribe e₁).outcome = e₁.runQuery q ∧
    ((query s q).subscribe e₂).outcome = e₂.runQuery q := by
  have hrun₁ : (query s q).subscribe e₁ =
      ⟨[Event.provide, Event.runnerQuery q, Event.release], e₁.runQuery q, s⟩ := by
    simp [query, ColdStream.subscribe, queryPromiseFn, hg, h₁, hr₁]
  have hrun₂ : (query s q).subscribe e₂ =
      ⟨[Event.provide, Event.runnerQuery q, Event.release], e₂.runQuery q, s⟩ := by
    simp [query, ColdStream.subscribe, queryPromiseFn, hg, h₂, hr₂]
  rw [hrun₁, hrun₂]
  exact ⟨rfl, rfl, rfl, rfl⟩

/-- Witness for C1: two concrete activations of one `query` stream, with
environments whose raw queries return different rows; each activation
performs its own `provide`/`release` pair and observes its own result. -/
theorem c1_query_cold_two_activations_witness :
    ((query ⟨false, false, none⟩ "SELECT 1").subscribe
        ⟨Except.ok (), fun _ => Except.ok ["one"], Except.ok ()⟩).trace =
      [Event.provide, Event.runnerQuery "SELECT 1", Event.release] ∧
    ((query ⟨false, false, none⟩ "SELECT 1").subscribe
        ⟨Except.ok (), fun _ => Except.ok ["two"], Except.ok ()⟩).trace =
      [Event.provide, Event.runnerQuery "SELECT 1", Event.release] ∧
    ((query ⟨false, false, none⟩ "SELECT 1").subscribe
        ⟨Except.ok (), fun _ => Except.ok ["one"], Except.ok ()⟩).outcome =
      Except.ok ["one"] ∧
    ((query ⟨false, false, none⟩ "SELECT 1").subscribe
        ⟨Except.ok (), fun _ => Except.ok ["two"], Except.ok ()⟩).outcome =
      Except.ok ["two"] :=
  c1_query_cold_two_activations ⟨false, false, none⟩ "SELECT 1"
    ⟨Except.ok (), fun _ => Except.ok ["one"], Except.ok ()⟩
    ⟨Except.ok (), fun _ => Except.ok ["two"], Except.ok ()⟩
    rfl rfl rfl rfl rfl

/-- C5: any `query` or `transaction` subscription that passes the
released-manager guard and whose acquisition succeeds performs exactly
one `provide` and exactly one `release`, whatever the outcome of the
work in between, and the `release` is the last external call before the
stream settles. -/
theorem c5_provide_release_pairing (α : Type) (s : ManagerState)
    (q : String) (envq : QueryEnv) (envt : TxEnv α)
    (hg : (s.useSingleDatabaseConnection && s.isReleased) = false)
    (hq : envq.provide = Except.ok ()) (ht : envt.provide = Except.ok ()) :
    countEvent ((query s q).subscribe envq).trace Event.provide = 1 ∧
    countEvent ((query s q).subscribe envq).trace Event.release = 1 ∧
    ((query s q).subscribe envq).trace.getLast? = some Event.release ∧
    countEvent ((transaction α s).subscribe envt).trace Event.provide = 1 ∧
    countEvent ((transaction α s).subscribe envt).trace Event.release = 1 ∧
    ((transaction α s).subscribe envt).trace.getLast? = some Event.release := by
  have htrq : ((query s q).subscribe envq).trace =
      [Event.provide, Event.runnerQuery q, Event.release] := by
    simp [query, ColdStream.subscribe, queryPromiseFn, hg, hq]
  have htrt : ((transaction α s).subscribe envt).trace =
      Event.provide :: (txTryCatch envt).1 ++ [Event.release] := by
    simp [transaction, ColdStream.subscribe, transactionPromiseFn, hg, ht]
  have hbody := txTryCatch_no_provide_release envt
  refine ⟨?_, ?_, ?_, ?_, ?_, ?_⟩
  · rw [htrq]; simp [countEvent_cons, countEvent_nil]
  · rw [htrq]; simp [countEvent_cons, countEvent_nil]
  · rw [htrq]; rfl
  · rw [htrt]
    simp [countEvent_cons, countEvent_append, countEvent_nil, hbody.1]
  · rw [htrt]
    simp [countEvent_cons, countEvent_append, countEvent_nil, hbody.2]
  · rw [htrt]
    exact getLast?_snoc (Event.provide :: (txTryCatch envt).1) Event.release

/-- Witness for C5: a concrete manager, a failing raw query and a
failing unit of work — both subscriptions still pair one `provide` with
one final `release`. -/
theorem c5_provide_release_pairing_witness :
    countEvent ((query ⟨false, false, none⟩ "SELECT 1").subscribe
        ⟨Except.ok (), fun _ => Except.error (JsError.external 5),
          Except.ok ()⟩).trace Event.provide = 1 ∧
    countEvent ((query ⟨false, false, none⟩ "SELECT 1").subscribe
        ⟨Except.ok (), fun _ => Except.error (JsError.external 5),
          Except.ok ()⟩).trace Event.release = 1 ∧
    ((transaction Nat ⟨false, false, none⟩).subscribe
        ⟨Except.ok (), Except.ok (), [4], Except.error (JsError.external 6),
          Except.ok (), Except.ok (), Except.ok ()⟩).trace.getLast? =
      some Event.release := by
  have h := c5_provide_release_pairing Nat ⟨false, false, none⟩ "SELECT 1"
    ⟨Except.ok (), fun _ => Except.error (JsError.external 5), Except.ok ()⟩
    ⟨Except.ok (), Except.ok (), [4], Except.error (JsError.external 6),
      Except.ok (), Except.ok (), Except.ok ()⟩ rfl rfl rfl
  exact ⟨h.1, h.2.1, h.2.2.2.2.2⟩

/-- C6: on a single-connection manager that has been released, both
`query` and `transaction` fail immediately with
`EntityManagerAlreadyReleasedError` and perform no external call at all
(in particular no `provide`); on a per-call manager the `isReleased`
flag is not consulted — the activation behaves identically whatever the
flag's value — and the call proceeds to `provide`. -/
theorem c6_released_guard (r : Option Nat) (q : String) (envq : QueryEnv)
    (α : Type) (envt : TxEnv α) (b : Bool) :
    (query ⟨true, true, r⟩ q).subscribe envq =
      ⟨[], Except.error JsError.entityManagerAlreadyReleased, ⟨true, true, r⟩⟩ ∧
    (transaction α ⟨true, true, r⟩).subscribe envt =
      ⟨[], Except.error JsError.entityManagerAlreadyReleased, ⟨true, true, r⟩⟩ ∧
    ((query ⟨false, b, r⟩ q).subscribe envq).trace =
      ((query ⟨false, false, r⟩ q).subscribe envq).trace ∧
    ((query ⟨false, b, r⟩ q).subscribe envq).outcome =
      ((query ⟨false, false, r⟩ q).subscribe envq).outcome ∧
    ((transaction α ⟨false, b, r⟩).subscribe envt).trace =
      ((transaction α ⟨false, false, r⟩).subscribe envt).trace ∧
    ((transaction α ⟨false, b, r⟩).subscribe envt).outcome =
      ((transaction α ⟨false, false, r⟩).subscribe envt).outcome ∧
    ((query ⟨false, b, r⟩ q).subscribe envq).trace.head? = some Event.provide ∧
    ((transaction α ⟨false, b, r⟩).subscribe envt).trace.head? =
      some Event.provide := by
  refine ⟨rfl, rfl, ?_, ?_, ?_, ?_, ?_, ?_⟩
  · cases h : envq.provide <;>
      simp [query, ColdStream.subscribe, queryPromiseFn, h]
  · cases h : envq.provide <;>
      simp [query, ColdStream.subscribe, queryPromiseFn, h]
  · cases h : envt.provide <;>
      simp [transaction, ColdStream.subscribe, transactionPromiseFn, h]
  · cases h : envt.provide <;>
      simp [transaction, ColdStream.subscribe, transactionPromiseFn, h]
  · cases h : envq.provide <;>
      simp [query, ColdStream.subscribe, queryPromiseFn, h]
  · cases h : envt.provide <;>
      simp [transaction, ColdStream.subscribe, transactionPromiseFn, h]

/-- C10: when `provide()` itself rejects, the rejection happens before
the `try`/`finally` is entered, so `release` is never called, no
transaction-control call is made, the manager state is untouched, and
the stream fails with the acquisition error unmodified. -/
theorem c10_provide_rejection (α : Type) (s : ManagerState) (q : String)
    (envq : QueryEnv) (envt : TxEnv α) (e₁ e₂ : JsError)
    (hg : (s.useSingleDatabaseConnection && s.isReleased) = false)
    (hq : envq.provide = Except.error e₁)
    (ht : envt.provide = Except.error e₂) :
    (query s q).subscribe envq = ⟨[Event.provide], Except.error e₁, s⟩ ∧
    (transaction α s).subscribe envt =
      ⟨[Event.provide], Except.error e₂, s⟩ := by
  constructor
  · simp [query, ColdStream.subscribe, queryPromiseFn, hg, hq]
  · simp [transaction, ColdStream.subscribe, transactionPromiseFn, hg, ht]

/-- Witness for C10: a concrete per-call manager whose provider fails to
acquire a runner; the trace is the lone `provide` call and the
activation fails with that same error. -/
theorem c10_provide_rejection_witness :
    (query ⟨false, false, none⟩ "SELECT 1").subscribe
        ⟨Except.error (JsError.external 3), fun _ => Except.ok [],
          Except.ok ()⟩ =
      ⟨[Event.provide], Except.error (JsError.external 3),
        ⟨false, false, none⟩⟩ ∧
    (transaction Nat ⟨false, false, none⟩).subscribe
        ⟨Except.error (JsError.external 4), Except.ok (), [],
          Except.ok 0, Except.ok (), Except.ok (), Except.ok ()⟩ =
      ⟨[Event.provide], Except.error (JsError.external 4),
        ⟨false, false, none⟩⟩ :=
  c10_provide_rejection Nat ⟨false, false, none⟩ "SELECT 1"
    ⟨Except.error (JsError.external 3), fun _ => Except.ok [], Except.ok ()⟩
    ⟨Except.error (JsError.external 4), Except.ok (), [], Except.ok 0,
      Except.ok (), Except.ok (), Except.ok ()⟩
    (JsError.external 3) (JsError.external 4) rfl rfl rfl

/-- Reuse of a stored shared provider: with the shared provider present,
every call uses it and the manager state never changes. -/
theorem obtainSeq_shared (n : Nat) :
    ∀ (s : ManagerState) (w : ProviderWorld) (p : Nat),
      s.useSingleDatabaseConnection = true →
      s.queryRunnerProvider = some p →
      obtainSeq s w n = (List.replicate n p, s) := by
  induction n with
  | zero => intro s w p _ _; rfl
  | succ n ih =>
    intro s w p hs hp
    have hstep : obtainRunnerProvider s w = (s, w, p) := by
      simp [obtainRunnerProvider, hs, hp]
    simp [obtainSeq, hstep, ih s w p hs hp, List.replicate_succ]

/-- Per-call mode: every call consumes a fresh provider id and the
manager state is untouched. -/
theorem obtainSeq_fresh (n : Nat) :
    ∀ (s : ManagerState) (w : ProviderWorld),
      s.useSingleDatabaseConnection = false →
      obtainSeq s w n = (List.range' w.next n, s) := by
  induction n with
  | zero => intro s w _; rfl
  | succ n ih =>
    intro s w hs
    have hstep : obtainRunnerProvider s w = (s, ⟨w.next + 1⟩, w.next) := by
      simp [obtainRunnerProvider, hs]
    simp [obtainSeq, hstep, ih s ⟨w.next + 1⟩ hs, List.range'_succ]

/-- Single-connection mode, first use: the first call creates the
provider, stores it, and every later call reuses the same one. -/
theorem obtainSeq_shared_first (n : Nat) (s : ManagerState)
    (w : ProviderWorld) (hs : s.useSingleDatabaseConnection = true)
    (hp : s.queryRunnerProvider = none) :
    (obtainSeq s w (n + 1)).1 = List.replicate (n + 1) w.next ∧
    (obtainSeq s w (n + 1)).2 =
      { s with queryRunnerProvider := some w.next } := by
  have hstep : obtainRunnerProvider s w =
      ({ s with queryRunnerProvider := some w.next }, ⟨w.next + 1⟩, w.next) := by
    simp [obtainRunnerProvider, hs, hp]
  have hrest := obtainSeq_shared n { s with queryRunnerProvider := some w.next }
    ⟨w.next + 1⟩ w.next hs rfl
  simp [obtainSeq, hstep, hrest, List.replicate_succ]

/-- C9: mode invariant for the RunnerProvider.  In single-connection
mode the provider is created lazily on the first `query`/`transaction`
use, stored, and that same provider serves every subsequent call (and
once stored the state never changes again); in per-call mode every call
uses a brand-new provider — the ids used are pairwise distinct — and
nothing is stored on the manager.  The provider actually used inside a
call is the one chosen by source lines 169/191 (`selectProvider`): the
stored one when present, a fresh one otherwise. -/
theorem c9_provider_mode_invariant (s : ManagerState) (w : ProviderWorld)
    (n : Nat) :
    (s.useSingleDatabaseConnection = true → s.queryRunnerProvider = none →
      (obtainSeq s w (n + 1)).1 = List.replicate (n + 1) w.next ∧
      (obtainSeq s w (n + 1)).2.queryRunnerProvider = some w.next) ∧
    (∀ p, s.useSingleDatabaseConnection = true →
      s.queryRunnerProvider = some p →
      (obtainSeq s w n).1 = List.replicate n p ∧ (obtainSeq s w n).2 = s) ∧
    (s.useSingleDatabaseConnection = false →
      (obtainSeq s w n).1 = List.range' w.next n ∧
      (obtainSeq s w n).1.Nodup ∧
      (obtainSeq s w n).2 = s) ∧
    (∀ p fresh, s.queryRunnerProvider = some p →
      selectProvider s fresh = p) ∧
    (∀ fresh, s.queryRunnerProvider = none →
      selectProvider s fresh = fresh) := by
  refine ⟨?_, ?_, ?_, ?_, ?_⟩
  · intro hs hp
    have h := obtainSeq_shared_first n s w hs hp
    exact ⟨h.1, by rw [h.2]⟩
  · intro p hs hp
    have h := obtainSeq_shared n s w p hs hp
    exact ⟨by rw [h], by rw [h]⟩
  · intro hs
    have h := obtainSeq_fresh n s w hs
    exact ⟨by rw [h], by rw [h]; exact List.nodup_range' w.next n, by rw [h]⟩
  · intro p fresh hp; simp [selectProvider, hp]
  · intro fresh hp; simp [selectProvider, hp]

/-- Witness for C9: three calls on a fresh single-connection manager all
use provider 5 (created once, lazily); three calls on a per-call manager
use providers 5, 6, 7 and leave the manager unchanged. -/
theorem c9_provider_mode_invariant_witness :
    (obtainSeq ⟨true, false, none⟩ ⟨5⟩ 3).1 = [5, 5, 5] ∧
    (obtainSeq ⟨true, false, none⟩ ⟨5⟩ 3).2.queryRunnerProvider = some 5 ∧
    (obtainSeq ⟨false, false, none⟩ ⟨5⟩ 3).1 = [5, 6, 7] ∧
    (obtainSeq ⟨false, false, none⟩ ⟨5⟩ 3).2 = ⟨false, false, none⟩ := by
  have h1 := (c9_provider_mode_invariant ⟨true, false, none⟩ ⟨5⟩ 2).1 rfl rfl
  have h2 := (c9_provider_mode_invariant ⟨false, false, none⟩ ⟨5⟩ 3).2.2.1 rfl
  refine ⟨by rw [h1.1]; rfl, h1.2, by rw [h2.1]; rfl, h2.2.2⟩

/-- C2: when the unit of work rejects (after a clean `provide` and
`beginTransaction`, and with the runner's own `rollbackTransaction` and
`release` resolving), the activation calls `rollbackTransaction` exactly
once, never calls `commitTransaction`, and the stream fails with the
unit of work's original error — the successful rollback does not replace
it. -/
theorem c2_transaction_uow_failure (α : Type) (s : ManagerState)
    (env : TxEnv α) (e : JsError)
    (hg : (s.useSingleDatabaseConnection && s.isReleased) = false)
    (hp : env.provide = Except.ok ()) (hb : env.beginTx = Except.ok ())
    (hu : env.unitOfWorkOutcome = Except.error e)
    (hr : env.rollback = Except.ok ())
    (hrel : env.release = Except.ok ()) :
    countEvent ((transaction α s).subscribe env).trace
      Event.rollbackTransaction = 1 ∧
    countEvent ((transaction α s).subscribe env).trace
      Event.commitTransaction = 0 ∧
    ((transaction α s).subscribe env).outcome = Except.error e := by
  refine ⟨?_, ?_, ?_⟩ <;>
    simp [transaction, ColdStream.subscribe, transactionPromiseFn,
      txTryCatch, txCatch, hg, hp, hb, hu, hr, hrel, countEvent_cons,
      countEvent_append, countEvent_nil, countEvent_repoOps_rollback,
      countEvent_repoOps_commit]

/-- Witness for C2: a concrete transaction whose unit of work performs
one repository operation and then rejects with error 8. -/
theorem c2_transaction_uow_failure_witness :
    countEvent ((transaction Nat ⟨true, false, some 0⟩).subscribe
        ⟨Except.ok (), Except.ok (), [2], Except.error (JsError.external 8),
          Except.ok (), Except.ok (), Except.ok ()⟩).trace
      Event.rollbackTransaction = 1 ∧
    countEvent ((transaction Nat ⟨true, false, some 0⟩).subscribe
        ⟨Except.ok (), Except.ok (), [2], Except.error (JsError.external 8),
          Except.ok (), Except.ok (), Except.ok ()⟩).trace
      Event.commitTransaction = 0 ∧
    ((transaction Nat ⟨true, false, some 0⟩).subscribe
        ⟨Except.ok (), Except.ok (), [2], Except.error (JsError.external 8),
          Except.ok (), Except.ok (), Except.ok ()⟩).outcome =
      Except.error (JsError.external 8) :=
  c2_transaction_uow_failure Nat ⟨true, false, some 0⟩
    ⟨Except.ok (), Except.ok (), [2], Except.error (JsError.external 8),
      Except.ok (), Except.ok (), Except.ok ()⟩
    (JsError.external 8) rfl rfl rfl rfl rfl rfl

/-- C3: when the unit of work resolves with `v` (and the runner's calls
all resolve), the activation produces the ordered effect sequence
`provide`, `beginTransaction`, the unit of work's own operations,
`commitTransaction`, `release`; the commit happens exactly once, no
rollback ever happens, the release follows the commit, and the stream
settles with `v`. -/
theorem c3_transaction_success (α : Type) (s : ManagerState)
    (env : TxEnv α) (v : α)
    (hg : (s.useSingleDatabaseConnection && s.isReleased) = false)
    (hp : env.provide = Except.ok ()) (hb : env.beginTx = Except.ok ())
    (hu : env.unitOfWorkOutcome = Except.ok v)
    (hc : env.commit = Except.ok ())
    (hrel : env.release = Except.ok ()) :
    ((transaction α s).subscribe env).trace =
      [Event.provide, Event.beginTransaction] ++
        env.unitOfWorkOps.map Event.repoOp ++
        [Event.commitTransaction, Event.release] ∧
    ((transaction α s).subscribe env).outcome = Except.ok v ∧
    countEvent ((transaction α s).subscribe env).trace
      Event.commitTransaction = 1 ∧
    countEvent ((transaction α s).subscribe env).trace
      Event.rollbackTransaction = 0 := by
  refine ⟨?_, ?_, ?_, ?_⟩ <;>
    simp [transaction, ColdStream.subscribe, transactionPromiseFn,
      txTryCatch, txCatch, hg, hp, hb, hu, hc, hrel, countEvent_cons,
      countEvent_append, countEvent_nil, countEvent_repoOps_rollback,
      countEvent_repoOps_commit]

/-- Witness for C3: the spec's end-to-end example — a unit of work that
performs one persistence operation and returns 42. -/
theorem c3_transaction_success_witness :
    ((transaction Nat ⟨true, false, some 0⟩).subscribe
        ⟨Except.ok (), Except.ok (), [1], Except.ok 42, Except.ok (),
          Except.ok (), Except.ok ()⟩).trace =
      [Event.provide, Event.beginTransaction, Event.repoOp 1,
        Event.commitTransaction, Event.release] ∧
    ((transaction Nat ⟨true, false, some 0⟩).subscribe
        ⟨Except.ok (), Except.ok (), [1], Except.ok 42, Except.ok (),
          Except.ok (), Except.ok ()⟩).outcome = Except.ok 42 := by
  have h := c3_transaction_success Nat ⟨true, false, some 0⟩
    ⟨Except.ok (), Except.ok (), [1], Except.ok 42, Except.ok (),
      Except.ok (), Except.ok ()⟩ 42 rfl rfl rfl rfl rfl rfl
  exact ⟨h.1, h.2.1⟩

/-- A transaction environment in which everything succeeds except
`commitTransaction`, which rejects. -/
def commitFailEnv : TxEnv Nat :=
  ⟨Except.ok (), Except.ok (), [], Except.ok 7,
    Except.error (JsError.external 9), Except.ok (), Except.ok ()⟩

/-- Counterexample to C4 as stated: on an attempt in which
`commitTransaction` is invoked and rejects, the `catch` block also
invokes `rollbackTransaction`, so BOTH commit and rollback are invoked
in the same transaction attempt — "exactly one of commitTransaction and
rollbackTransaction is invoked, never both" is false for this input. -/
theorem c4_counterexample_commit_failure :
    countEvent ((transaction Nat ⟨false, false, none⟩).subscribe
      commitFailEnv).trace Event.commitTransaction = 1 ∧
    countEvent ((transaction Nat ⟨false, false, none⟩).subscribe
      commitFailEnv).trace Event.rollbackTransaction = 1 := by decide

/-- C4 amended: on every transaction attempt that passes the guard and
acquires a runner, `release` is invoked exactly once and is the last
external call (after the commit/rollback decision is resolved), at least
one of commit/rollback is always invoked, and exactly one of them is
invoked EXCEPT when `commitTransaction` is invoked and rejects, in which
case `rollbackTransaction` is additionally invoked after the failed
commit. -/
theorem c4_amended_commit_rollback_release (α : Type) (s : ManagerState)
    (env : TxEnv α)
    (hg : (s.useSingleDatabaseConnection && s.isReleased) = false)
    (hp : env.provide = Except.ok ()) :
    countEvent ((transaction α s).subscribe env).trace Event.release = 1 ∧
    ((transaction α s).subscribe env).trace.getLast? = some Event.release ∧
    ((countEvent ((transaction α s).subscribe env).trace
        Event.commitTransaction = 1 ∧
      countEvent ((transaction α s).subscribe env).trace
        Event.rollbackTransaction = 0) ∨
     (countEvent ((transaction α s).subscribe env).trace
        Event.commitTransaction = 0 ∧
      countEvent ((transaction α s).subscribe env).trace
        Event.rollbackTransaction = 1) ∨
     (countEvent ((transaction α s).subscribe env).trace
        Event.commitTransaction = 1 ∧
      countEvent ((transaction α s).subscribe env).trace
        Event.rollbackTransaction = 1 ∧
      ∃ e, env.commit = Except.error e)) := by
  have htrt : ((transaction α s).subscribe env).trace =
      Event.provide :: (txTryCatch env).1 ++ [Event.release] := by
    simp [transaction, ColdStream.subscribe, transactionPromiseFn, hg, hp]
  have hbody := txTryCatch_no_provide_release env
  have hcomm : countEvent ((transaction α s).subscribe env).trace
      Event.commitTransaction =
      countEvent (txTryCatch env).1 Event.commitTransaction := by
    rw [htrt]; simp [countEvent_cons, countEvent_append, countEvent_nil]
  have hroll : countEvent ((transaction α s).subscribe env).trace
      Event.rollbackTransaction =
      countEvent (txTryCatch env).1 Event.rollbackTransaction := by
    rw [htrt]; simp [countEvent_cons, countEvent_append, countEvent_nil]
  refine ⟨?_, ?_, ?_⟩
  · rw [htrt]
    simp [countEvent_cons, countEvent_append, countEvent_nil, hbody.2]
  · rw [htrt]
    exact getLast?_snoc (Event.provide :: (txTryCatch env).1) Event.release
  · rw [hcomm, hroll]
    exact txTryCatch_commit_rollback env

/-- Witness for C4's amended statement: a failing unit of work — one
release, last in the trace, and the rollback-only branch of the
disjunction. -/
theorem c4_amended_commit_rollback_release_witness :
    countEvent ((transaction Nat ⟨false, false, none⟩).subscribe
        ⟨Except.ok (), Except.ok (), [2], Except.error (JsError.external 8),
          Except.ok (), Except.ok (), Except.ok ()⟩).trace
      Event.release = 1 ∧
    ((transaction Nat ⟨false, false, none⟩).subscribe
        ⟨Except.ok (), Except.ok (), [2], Except.error (JsError.external 8),
          Except.ok (), Except.ok (), Except.ok ()⟩).trace.getLast? =
      some Event.release :=
  ⟨(c4_amended_commit_rollback_release Nat ⟨false, false, none⟩
      ⟨Except.ok (), Except.ok (), [2], Except.error (JsError.external 8),
        Except.ok (), Except.ok (), Except.ok ()⟩ rfl rfl).1,
   (c4_amended_commit_rollback_release Nat ⟨false, false, none⟩
      ⟨Except.ok (), Except.ok (), [2], Except.error (JsError.external 8),
        Except.ok (), Except.ok (), Except.ok ()⟩ rfl rfl).2.1⟩

/-- C7: the two-argument overloads of `persist`/`remove` always resolve
the repository from the explicit target tag — even when it differs from
the entity's runtime type — while the one-argument overloads resolve it
from the entity's own runtime type (`entity.constructor`); the entity
itself is forwarded unchanged and the repository's stream is returned
unchanged. -/
theorem c7_persist_remove_dispatch (ρ : Type)
    (getReactiveRepository : String → ReactiveRepository ρ)
    (t : String) (e : EntityVal) (_hne : t ≠ e.ctor) :
    persistTo getReactiveRepository t e =
      (getReactiveRepository t).persistOp e ∧
    persist getReactiveRepository e =
      (getReactiveRepository e.ctor).persistOp e ∧
    removeTo getReactiveRepository t e =
      (getReactiveRepository t).removeOp e ∧
    remove getReactiveRepository e =
      (getReactiveRepository e.ctor).removeOp e :=
  ⟨rfl, rfl, rfl, rfl⟩

/-- A resolver whose repositories record the tag they were resolved
from together with the entity they receive. -/
def tagRepo : String → ReactiveRepository (String × EntityVal) :=
  fun tag => ⟨fun entity => (tag, entity), fun entity => (tag, entity)⟩

/-- Witness for C7: an entity of runtime type `User` persisted with
explicit tag `Photo` goes to the `Photo` repository; with one argument
it goes to the `User` repository; the two results differ. -/
theorem c7_persist_remove_dispatch_witness :
    "Photo" ≠ (EntityVal.mk "User" 5).ctor ∧
    persistTo tagRepo "Photo" ⟨"User", 5⟩ = ("Photo", ⟨"User", 5⟩) ∧
    persist tagRepo ⟨"User", 5⟩ = ("User", ⟨"User", 5⟩) ∧
    persistTo tagRepo "Photo" ⟨"User", 5⟩ ≠ persist tagRepo ⟨"User", 5⟩ := by
  have h := c7_persist_remove_dispatch (String × EntityVal) tagRepo "Photo"
    ⟨"User", 5⟩ (by decide)
  exact ⟨by decide, h.1, h.2.1, by decide⟩

/-- Counterexample to C8 as stated: the dispatch tests JavaScript
truthiness, not presence.  With a supplied-but-`null` conditions
argument and a present options object, the claim says both are forwarded
to the repository, but the code calls the zero-argument variant and the
options object is dropped. -/
theorem c8_presence_dispatch_counterexample :
    find (fun _ => recorder) "User" JsVal.nullV (JsVal.objV 1) =
      FindCall.calledNone ∧
    find (fun _ => recorder) "User" JsVal.nullV (JsVal.objV 1) ≠
      FindCall.calledBoth JsVal.nullV (JsVal.objV 1) ∧
    specFindDispatch JsVal.nullV (JsVal.objV 1) =
      FindCall.calledBoth JsVal.nullV (JsVal.objV 1) := by decide

/-- C8 amended: `find`, `findAndCount` and `findOne` dispatch
positionally on TRUTHINESS of the two optional arguments: if both are
truthy, both are forwarded unmodified; if the first is truthy and the
second is not, the first alone is forwarded; if the first is falsy
(absent, `undefined` or `null`), the zero-argument repository variant is
called and the second argument is ignored.  For arguments that are
either omitted or truthy objects — the only well-typed shapes the
overloads advertise — this coincides with presence-based dispatch. -/
theorem c8_truthiness_dispatch (ρ : Type) (resolve : String → FindFamily ρ)
    (ec : String) (cond opts : JsVal) :
    (cond.truthy = true → opts.truthy = true →
      find resolve ec cond opts = (resolve ec).withBoth cond opts ∧
      findAndCount resolve ec cond opts = (resolve ec).withBoth cond opts ∧
      findOne resolve ec cond opts = (resolve ec).withBoth cond opts) ∧
    (cond.truthy = true → opts.truthy = false →
      find resolve ec cond opts = (resolve ec).withOne cond ∧
      findAndCount resolve ec cond opts = (resolve ec).withOne cond ∧
      findOne resolve ec cond opts = (resolve ec).withOne cond) ∧
    (cond.truthy = false →
      find resolve ec cond opts = (resolve ec).withNone ∧
      findAndCount resolve ec cond opts = (resolve ec).withNone ∧
      findOne resolve ec cond opts = (resolve ec).withNone) := by
  refine ⟨?_, ?_, ?_⟩
  · intro h1 h2
    refine ⟨?_, ?_, ?_⟩ <;> simp [find, findAndCount, findOne, h1, h2]
  · intro h1 h2
    refine ⟨?_, ?_, ?_⟩ <;> simp [find, findAndCount, findOne, h1, h2]
  · intro h1
    refine ⟨?_, ?_, ?_⟩ <;> simp [find, findAndCount, findOne, h1]

/-- Witness for C8's amended statement: two objects are both forwarded;
an object alone is forwarded alone; two omitted arguments reach the
zero-argument variant. -/
theorem c8_truthiness_dispatch_witness :
    find (fun _ => recorder) "User" (JsVal.objV 2) (JsVal.objV 3) =
      FindCall.calledBoth (JsVal.objV 2) (JsVal.objV 3) ∧
    findOne (fun _ => recorder) "User" (JsVal.objV 2) JsVal.undefinedV =
      FindCall.calledOne (JsVal.objV 2) ∧
    findAndCount (fun _ => recorder) "User" JsVal.undefinedV
      JsVal.undefinedV = FindCall.calledNone := by
  have h1 := c8_truthiness_dispatch FindCall (fun _ => recorder) "User"
    (JsVal.objV 2) (JsVal.objV 3)
  have h2 := c8_truthiness_dispatch FindCall (fun _ => recorder) "User"
    (JsVal.objV 2) JsVal.undefinedV
  have h3 := c8_truthiness_dispatch FindCall (fun _ => recorder) "User"
    JsVal.undefinedV JsVal.undefinedV
  exact ⟨(h1.1 rfl rfl).1, (h2.2.1 rfl rfl).2.2, (h3.2.2 rfl).2.1⟩

end ReactiveEntityManager
